import Mathlib

/-! Verification of the FarmBeats dashboard's weather impact resolver and
energy series generator, embedded from `src/main.py`.

The only non-presentation logic in the repository is the helper
`get_weather_impact` (lines 63-70) and the `energy` list comprehension
built in `show_dashboard` (lines 103-107). Both are embedded below as
pure Lean functions; the Python floats involved take only dyadic values
(steps of `0.5` and `1.5`), so `ℚ` represents them exactly. -/

/-- Embeds `get_weather_impact(weather)` from `src/main.py` lines 63-70:
`if weather == "Sunny": return 94, "200Wh/day", "Normal"`,
`elif weather == "Cloudy": return 65, "140Wh/day", "Conservation Mode"`,
`else: return 28, "10Wh/day", "Deep Sleep"`. The battery component is an
integer, the other two are the literal strings of the source. -/
def get_weather_impact (weather : String) : Int × String × String :=
  if weather = "Sunny" then (94, "200Wh/day", "Normal")
  else if weather = "Cloudy" then (65, "140Wh/day", "Conservation Mode")
  else (28, "10Wh/day", "Deep Sleep")

/-- Embeds `hours = list(range(24))` from `src/main.py` line 103. -/
def hours : List Nat := List.range 24

/-- Embeds the `energy` list comprehension from `src/main.py` lines 104-107:
`energy = [50 + (x * 2) if x < 12 else 74 - (x * 0.5) for x in hours]`
when `weather_state == "Sunny"`, else
`energy = [60 - (x * 1.5) for x in hours]`. -/
def energySeries (weather_state : String) : List ℚ :=
  if weather_state = "Sunny" then
    hours.map (fun (x : Nat) => if x < 12 then 50 + (x : ℚ) * 2 else 74 - (x : ℚ) * 0.5)
  else
    hours.map (fun (x : Nat) => 60 - (x : ℚ) * 1.5)

/-- Modelled from the spec (section 3): `WeatherCondition` is an enumerated
value, one of Sunny, Cloudy, Storm. -/
inductive WeatherCondition
  | Sunny
  | Cloudy
  | Storm
deriving DecidableEq

/-- Modelled from the spec (section 3): `operatingMode` is one of
Normal, ConservationMode, DeepSleep. -/
inductive OperatingMode
  | Normal
  | ConservationMode
  | DeepSleep
deriving DecidableEq

/-- The string of `src/main.py` that denotes each enumerated weather
condition (the three literal options of the `selectbox` at line 79). -/
def condString : WeatherCondition → String
  | .Sunny => "Sunny"
  | .Cloudy => "Cloudy"
  | .Storm => "Storm"

/-- The string of `src/main.py` that renders each operating mode:
`"Normal"`, `"Conservation Mode"`, `"Deep Sleep"` (lines 66, 68, 70). -/
def modeString : OperatingMode → String
  | .Normal => "Normal"
  | .ConservationMode => "Conservation Mode"
  | .DeepSleep => "Deep Sleep"

/-- Modelled from the spec (section 4.1): the lookup table giving
`(batteryLevelPercent, solarInputLabel, operatingMode)` for each
condition. -/
def specTable : WeatherCondition → Int × String × OperatingMode
  | .Sunny => (94, "200Wh/day", .Normal)
  | .Cloudy => (65, "140Wh/day", .ConservationMode)
  | .Storm => (28, "10Wh/day", .DeepSleep)

/-- The Sunny branch of the series generator, unfolded. -/
lemma energySeries_sunny :
    energySeries "Sunny" =
      hours.map (fun (x : Nat) =>
        if x < 12 then 50 + (x : ℚ) * 2 else 74 - (x : ℚ) * 0.5) := by
  rw [energySeries, if_pos rfl]

/-- Any condition other than "Sunny" takes the shared else branch of the
series generator. -/
lemma energySeries_not_sunny (w : String) (hw : w ≠ "Sunny") :
    energySeries w = hours.map (fun (x : Nat) => 60 - (x : ℚ) * 1.5) := by
  rw [energySeries, if_neg hw]

/-- Indexing a map over `hours = range 24` evaluates the function at the
hour index. -/
lemma getD_map_hours (f : Nat → ℚ) (h : Nat) (hlt : h < 24) :
    (hours.map f).getD h 0 = f h := by
  rw [hours, List.getD_eq_getElem?_getD, List.getElem?_map, List.getElem?_range hlt]
  rfl

/-- Every element of the energy series lies in [25.5, 72] and hence in
[0, 100], for any input string at all. -/
lemma energy_mem_bounds (w : String) (y : ℚ) (hy : y ∈ energySeries w) :
    (25.5 ≤ y ∧ y ≤ 72) ∧ (0 ≤ y ∧ y ≤ 100) := by
  by_cases hw : w = "Sunny"
  · subst hw
    rw [energySeries_sunny, hours] at hy
    obtain ⟨x, hxm, hfx⟩ := List.mem_map.mp hy
    have hx : x < 24 := List.mem_range.mp hxm
    have hx23 : (x : ℚ) ≤ 23 := by exact_mod_cast Nat.lt_succ_iff.mp hx
    subst hfx
    by_cases h12 : x < 12
    · have hxq : (x : ℚ) ≤ 11 := by exact_mod_cast Nat.lt_succ_iff.mp h12
      have hx0 : (0 : ℚ) ≤ (x : ℚ) := by positivity
      simp only [if_pos h12]
      refine ⟨⟨?_, ?_⟩, ?_, ?_⟩ <;> norm_num <;> linarith
    · have hxq : (12 : ℚ) ≤ (x : ℚ) := by exact_mod_cast Nat.le_of_not_lt h12
      simp only [if_neg h12]
      refine ⟨⟨?_, ?_⟩, ?_, ?_⟩ <;> norm_num <;> linarith
  · rw [energySeries_not_sunny w hw, hours] at hy
    obtain ⟨x, hxm, hfx⟩ := List.mem_map.mp hy
    have hx : x < 24 := List.mem_range.mp hxm
    have hx0 : (0 : ℚ) ≤ (x : ℚ) := by positivity
    have hx23 : (x : ℚ) ≤ 23 := by exact_mod_cast Nat.lt_succ_iff.mp hx
    subst hfx
    refine ⟨⟨?_, ?_⟩, ?_, ?_⟩ <;> norm_num <;> linarith

/-- The value 60 is the hour-0 sample of the Cloudy series. -/
lemma sixty_mem_cloudy :
    (60 : ℚ) ∈ energySeries (condString WeatherCondition.Cloudy) := by
  show (60 : ℚ) ∈ energySeries "Cloudy"
  rw [energySeries_not_sunny _ (by decide), hours]
  exact List.mem_map.mpr ⟨0, List.mem_range.mpr (by norm_num), by norm_num⟩

/-- C1: for every condition in Sunny, Cloudy, Storm, `get_weather_impact`
returns exactly the literal tuple of the section 4.1 lookup table: the
battery level and solar label are equal on the nose, and the operating-mode
string is exactly the source rendering of the table's enumerated mode
(Normal is "Normal", ConservationMode is "Conservation Mode", DeepSleep is
"Deep Sleep"). -/
theorem resolve_matches_lookup_table (c : WeatherCondition) :
    get_weather_impact (condString c) =
      ((specTable c).1, (specTable c).2.1, modeString (specTable c).2.2) := by
  cases c <;> rfl

/-- C2 counterexample: at the concrete input "Foggy", which is none of
Sunny, Cloudy, Storm, `get_weather_impact` returns the Storm tuple instead
of raising any error; the source has no raise statement and defines no
`InvalidConditionError`. -/
theorem resolve_foggy_returns_storm_tuple :
    "Foggy" ≠ "Sunny" ∧ "Foggy" ≠ "Cloudy" ∧ "Foggy" ≠ "Storm" ∧
      get_weather_impact "Foggy" = (28, "10Wh/day", "Deep Sleep") :=
  ⟨by decide, by decide, by decide, rfl⟩

/-- C2 amended: for every input value outside Sunny, Cloudy, Storm,
`get_weather_impact` returns the Storm tuple (28, "10Wh/day", "Deep Sleep")
through its catch-all else branch; no `InvalidConditionError` exists or is
raised. -/
theorem resolve_unknown_returns_storm_tuple (w : String)
    (h1 : w ≠ "Sunny") (h2 : w ≠ "Cloudy") (_h3 : w ≠ "Storm") :
    get_weather_impact w = (28, "10Wh/day", "Deep Sleep") := by
  simp [get_weather_impact, h1, h2]

/-- Witness for the C2 amended theorem at the concrete input "Hail". -/
theorem resolve_unknown_returns_storm_tuple_witness :
    "Hail" ≠ "Sunny" ∧ "Hail" ≠ "Cloudy" ∧ "Hail" ≠ "Storm" ∧
      get_weather_impact "Hail" = (28, "10Wh/day", "Deep Sleep") :=
  ⟨by decide, by decide, by decide,
    resolve_unknown_returns_storm_tuple "Hail" (by decide) (by decide) (by decide)⟩

/-- C3: the Sunny energy series satisfies `energy[h] = 50 + 2*h` for
`h < 12` and `energy[h] = 74 - 0.5*h` for `12 <= h <= 23`; in particular
`energy[0] = 50`, `energy[11] = 72`, `energy[12] = 68`,
`energy[23] = 62.5`. -/
theorem sunny_series_formula (h : Nat) (hlt : h < 24) :
    (energySeries "Sunny").getD h 0 =
      if h < 12 then 50 + 2 * (h : ℚ) else 74 - 0.5 * (h : ℚ) := by
  rw [energySeries_sunny, getD_map_hours _ h hlt]
  by_cases h12 : h < 12
  · simp only [if_pos h12]; ring
  · simp only [if_neg h12]; ring

/-- Witness for C3 at hour 23: the value is `74 - 0.5*23 = 62.5`. -/
theorem sunny_series_formula_witness :
    (23 < 24 ∧
      (energySeries "Sunny").getD 23 0 =
        if (23 : Nat) < 12 then 50 + 2 * ((23 : Nat) : ℚ)
        else 74 - 0.5 * ((23 : Nat) : ℚ)) ∧
      (74 - 0.5 * ((23 : Nat) : ℚ)) = 62.5 :=
  ⟨⟨by decide, sunny_series_formula 23 (by decide)⟩, by norm_num⟩

/-- C4: the Cloudy energy series, and the Storm one which shares the
branch, satisfy `energy[h] = 60 - 1.5*h` for every `0 <= h <= 23`; in
particular `energy[0] = 60` and `energy[23] = 25.5`. -/
theorem cloudy_storm_series_formula (h : Nat) (hlt : h < 24) :
    (energySeries "Cloudy").getD h 0 = 60 - 1.5 * (h : ℚ) ∧
      (energySeries "Storm").getD h 0 = 60 - 1.5 * (h : ℚ) := by
  rw [energySeries_not_sunny "Cloudy" (by decide),
    energySeries_not_sunny "Storm" (by decide), getD_map_hours _ h hlt]
  constructor <;> ring

/-- Witness for C4 at hour 23: the value is `60 - 1.5*23 = 25.5`. -/
theorem cloudy_storm_series_formula_witness :
    (23 < 24 ∧
      ((energySeries "Cloudy").getD 23 0 = 60 - 1.5 * ((23 : Nat) : ℚ) ∧
        (energySeries "Storm").getD 23 0 = 60 - 1.5 * ((23 : Nat) : ℚ))) ∧
      (60 - 1.5 * ((23 : Nat) : ℚ)) = 25.5 :=
  ⟨⟨by decide, cloudy_storm_series_formula 23 (by decide)⟩, by norm_num⟩

/-- C5: the Storm energy series is identical, element for element, to the
Cloudy one, even though `get_weather_impact` gives Storm and Cloudy
different metrics. -/
theorem storm_series_eq_cloudy_series :
    energySeries "Storm" = energySeries "Cloudy" ∧
      get_weather_impact "Storm" ≠ get_weather_impact "Cloudy" :=
  ⟨rfl, by decide⟩

/-- C6: for every condition in Sunny, Cloudy, Storm, the generated energy
series has length exactly 24. -/
theorem energy_series_length (c : WeatherCondition) :
    (energySeries (condString c)).length = 24 := by
  cases c <;> rfl

/-- C7: `get_weather_impact` and the energy series generator are
deterministic pure functions of the condition: two calls with the same
condition value give identical results. -/
theorem resolve_deterministic (w1 w2 : String) (h : w1 = w2) :
    get_weather_impact w1 = get_weather_impact w2 ∧
      energySeries w1 = energySeries w2 := by
  subst h
  exact ⟨rfl, rfl⟩

/-- Witness for C7 at the concrete condition "Sunny". -/
theorem resolve_deterministic_witness :
    "Sunny" = "Sunny" ∧
      (get_weather_impact "Sunny" = get_weather_impact "Sunny" ∧
        energySeries "Sunny" = energySeries "Sunny") :=
  ⟨rfl, resolve_deterministic "Sunny" "Sunny" rfl⟩

/-- C8: for every condition in Sunny, Cloudy, Storm, the battery level
returned by `get_weather_impact` is an integer in the closed interval
[0, 100]. -/
theorem battery_level_in_range (c : WeatherCondition) :
    0 ≤ (get_weather_impact (condString c)).1 ∧
      (get_weather_impact (condString c)).1 ≤ 100 := by
  cases c <;> decide

/-- C9: `get_weather_impact` is total: for every input not equal to
"Sunny" and not equal to "Cloudy", including any unrecognized value, it
returns the Storm tuple via its catch-all else branch, and no call path
raises an error (the embedding is a total function). -/
theorem resolve_total_catch_all (w : String)
    (h1 : w ≠ "Sunny") (h2 : w ≠ "Cloudy") :
    get_weather_impact w = (28, "10Wh/day", "Deep Sleep") := by
  simp [get_weather_impact, h1, h2]

/-- Witness for C9 at the concrete input "Windy". -/
theorem resolve_total_catch_all_witness :
    "Windy" ≠ "Sunny" ∧ "Windy" ≠ "Cloudy" ∧
      get_weather_impact "Windy" = (28, "10Wh/day", "Deep Sleep") :=
  ⟨by decide, by decide, resolve_total_catch_all "Windy" (by decide) (by decide)⟩

/-- C10: for every condition in Sunny, Cloudy, Storm, every value of the
generated energy series lies in [25.5, 72], hence in the battery bounds
[0, 100], without any clamping in the code. -/
theorem energy_series_bounded (c : WeatherCondition) (y : ℚ)
    (hy : y ∈ energySeries (condString c)) :
    (25.5 ≤ y ∧ y ≤ 72) ∧ (0 ≤ y ∧ y ≤ 100) :=
  energy_mem_bounds (condString c) y hy

/-- Witness for C10: the value 60 occurs in the Cloudy series and obeys
the bounds. -/
theorem energy_series_bounded_witness :
    (60 : ℚ) ∈ energySeries (condString WeatherCondition.Cloudy) ∧
      ((25.5 ≤ (60 : ℚ) ∧ (60 : ℚ) ≤ 72) ∧ (0 ≤ (60 : ℚ) ∧ (60 : ℚ) ≤ 100)) :=
  ⟨sixty_mem_cloudy, energy_series_bounded WeatherCondition.Cloudy 60 sixty_mem_cloudy⟩
